/-
Verification of the Carbon SDK CLI (src/index.ts) against its
natural-language specification.

The file shallowly embeds the CLI's data model and command handlers:
  - the `base_config` network constants (src/config.ts),
  - the option records and the `StrategyUpdate` object construction,
  - the marginal-price sentinel resolution of the update-strategy action,
  - the control flow of each registered command action, modelled as a pure
    function from an environment (the outcomes of the external SDK / wallet
    calls and the `PRIVATE_KEY` variable) to a run result recording the
    arguments handed to `sdk.updateStrategy`, the transactions broadcast,
    whether an error was caught and logged, and any `process.exit` code.

External collaborators (the Carbon SDK, ethers) are modelled only at their
call boundary: each fallible external call is an oracle bit in the
environment, and the ethers v5 `Interface.parseLog` lookup is modelled from
its documented behavior (it throws "no matching event" when the log's topic
matches no event fragment of the interface).
-/
import Mathlib

namespace CarbonCli

/-- A token pair as returned by the SDK reader (`TokenPair`): a 2-tuple of
token address strings; `pair[0]` is the first component, `pair[1]` the
second. -/
abbrev TokenPair := String × String

/-- The carbon contract addresses of `base_config` (src/config.ts). -/
structure CarbonAddresses where
  carbonController : String
  voucher : String
  deriving DecidableEq

/-- The part of the `base_config` record (src/config.ts) read by the CLI. -/
structure BaseConfig where
  carbon : CarbonAddresses
  multicall : String
  deriving DecidableEq

/-- `base_config` (src/config.ts): the network constants used by the CLI. -/
def base_config : BaseConfig :=
  { carbon :=
      { carbonController := "0xfbF069Dbbf453C1ab23042083CFa980B3a672BbA"
        voucher := "0x907F03ae649581EBFF369a21C587cb8F154A0B84" }
    multicall := "0xca11bde05977b3631167028862be2a173976ca11" }

/-- `TIMELOCK_ADDRESS` (src/index.ts:193): the hardcoded destination of the
transfer-strategy command. -/
def TIMELOCK_ADDRESS : String := "0x4b339A63be892204081AdCd02ac980FA71400e01"

/-- `GOVERNOR_ADDRESS` (src/index.ts:194): the hardcoded governor contract
address used by the registered propose-update-strategy command. -/
def GOVERNOR_ADDRESS : String := "0x0395FA5e53e2a9C9528539360324Da422708aCbD"

/-- `VOUCHER_ADDRESS` (src/index.ts:195): the voucher contract address, taken
from `base_config.carbon.voucher`. -/
def VOUCHER_ADDRESS : String := base_config.carbon.voucher

/-- The SDK's `MarginalPriceOptions` sentinel enum
(`@bancor/carbon-sdk/strategy-management`), treated as an opaque external
enum with the two members used by the CLI. -/
inductive MarginalPriceOptions where
  | reset
  | maintain
  deriving DecidableEq

/-- A value occupying a marginal-price argument position of
`sdk.updateStrategy`: either one of the SDK sentinel enum members, or a plain
string forwarded by the CLI without resolution. -/
inductive MarginalArg where
  | sentinel (o : MarginalPriceOptions)
  | raw (s : String)
  deriving DecidableEq

/-- The SDK's `StrategyUpdate` object: six optional numeric-string fields.
A `none` field is an absent (`undefined`) property. -/
structure StrategyUpdate where
  buyPriceLow : Option String := none
  buyPriceHigh : Option String := none
  buyBudget : Option String := none
  sellPriceLow : Option String := none
  sellPriceHigh : Option String := none
  sellBudget : Option String := none
  deriving DecidableEq

/-- The commander options record of the update-strategy and
propose-update-strategy commands (src/index.ts:118-125 and 273-280): eight
optional string-valued options; `none` is an unsupplied option. -/
structure UpdateOptions where
  buyPriceLow : Option String := none
  buyPriceHigh : Option String := none
  buyBudget : Option String := none
  sellPriceLow : Option String := none
  sellPriceHigh : Option String := none
  sellBudget : Option String := none
  buyPriceMarginal : Option String := none
  sellPriceMarginal : Option String := none
  deriving DecidableEq

/-- The full argument tuple of a call to `sdk.updateStrategy`
(src/index.ts:155-161 and 205-211). -/
structure SdkUpdateCall where
  strategyId : String
  encoded : String
  update : StrategyUpdate
  buyPriceMarginal : Option MarginalArg
  sellPriceMarginal : Option MarginalArg
  deriving DecidableEq

/-- JavaScript truthiness of an optional string: `undefined` and the empty
string are falsy; every other string is truthy. -/
def truthyStr : Option String → Bool
  | none => false
  | some s => !(s == "")

/-- The marginal-price resolution of the update-strategy action
(src/index.ts:143-153): `opt ? (opt === "RESET" ? reset : opt === "MAINTAIN"
? maintain : opt) : undefined`.  The outer conditional branches on JavaScript
truthiness, under which the empty string is falsy. -/
def resolveMarginal (opt : Option String) : Option MarginalArg :=
  match opt with
  | none => none
  | some s =>
    if s = "" then none
    else if s = "RESET" then some (MarginalArg.sentinel MarginalPriceOptions.reset)
    else if s = "MAINTAIN" then some (MarginalArg.sentinel MarginalPriceOptions.maintain)
    else some (MarginalArg.raw s)

/-- The `strategyUpdate` object-literal construction, identical in the
update-strategy action (src/index.ts:134-141) and the
propose-update-strategy action (src/index.ts:282-289): each of the six
fields is copied from the options record. -/
def mkStrategyUpdate (options : UpdateOptions) : StrategyUpdate :=
  { buyPriceLow := options.buyPriceLow
    buyPriceHigh := options.buyPriceHigh
    buyBudget := options.buyBudget
    sellPriceLow := options.sellPriceLow
    sellPriceHigh := options.sellPriceHigh
    sellBudget := options.sellBudget }

/-- The arguments handed to `sdk.updateStrategy` by the update-strategy
action (src/index.ts:155-161): the strategy id, the existing strategy's
encoded form, the constructed `strategyUpdate`, and the two resolved
marginal prices. -/
def updateStrategySdkCall (strategyId encoded : String) (options : UpdateOptions) :
    SdkUpdateCall :=
  { strategyId := strategyId
    encoded := encoded
    update := mkStrategyUpdate options
    buyPriceMarginal := resolveMarginal options.buyPriceMarginal
    sellPriceMarginal := resolveMarginal options.sellPriceMarginal }

/-- The arguments handed to `sdk.updateStrategy` by `proposeUpdateStrategy`
(src/index.ts:205-211): the marginal-price parameters of the function are
forwarded as plain strings, with no sentinel resolution performed. -/
def proposeSdkCall (strategyId encoded : String) (strategyUpdate : StrategyUpdate)
    (buyPriceMarginal sellPriceMarginal : Option String) : SdkUpdateCall :=
  { strategyId := strategyId
    encoded := encoded
    update := strategyUpdate
    buyPriceMarginal := Option.map MarginalArg.raw buyPriceMarginal
    sellPriceMarginal := Option.map MarginalArg.raw sellPriceMarginal }

/-- An entry of `receipt.logs`: topics and data. -/
structure Log where
  topics : List String
  data : String
  deriving DecidableEq

/-- An event fragment of an ethers `Interface`: event name and topic hash. -/
structure EventFragment where
  name : String
  topic : String
  deriving DecidableEq

/-- An ethers `Interface`: the fragments it was constructed from, split into
human-readable function signatures and event fragments. -/
structure ContractInterface where
  functionSignatures : List String
  events : List EventFragment
  deriving DecidableEq

/-- The `governorInterface` (src/index.ts:217-219): constructed from a single
human-readable `propose` function fragment; it declares no event
fragments. -/
def governorInterface : ContractInterface :=
  { functionSignatures :=
      ["propose(address[] memory targets, uint256[] memory values, bytes[] memory calldatas, string memory description) public returns (uint256)"]
    events := [] }

/-- The result of a successful `Interface.parseLog`: the parsed event's
name (the argument values are not needed by the embedding). -/
structure LogDescription where
  name : String
  deriving DecidableEq

/-- Model of ethers v5 `Interface.parseLog` (external collaborator, modelled
from its documented behavior): it looks up an event fragment of the
interface by the log's first topic and throws "no matching event" when no
event fragment of the interface matches. -/
def parseLog (iface : ContractInterface) (log : Log) : Except String LogDescription :=
  match log.topics.head? with
  | none => Except.error "no matching event"
  | some t =>
    match iface.events.find? (fun e => e.topic == t) with
    | none => Except.error "no matching event"
    | some e => Except.ok { name := e.name }

/-- `Array.prototype.find` with a callback that may throw: the first thrown
error propagates out of the whole `find` call. -/
def findExcept (p : α → Except String Bool) : List α → Except String (Option α)
  | [] => Except.ok none
  | a :: as =>
    match p a with
    | Except.error e => Except.error e
    | Except.ok true => Except.ok (some a)
    | Except.ok false => findExcept p as

/-- The `ProposalCreated` scan of `proposeUpdateStrategy`
(src/index.ts:256-259): `receipt.logs?.find(log => parseLog(log).name ===
"ProposalCreated")`.  `none` logs models an `undefined` `receipt.logs`
(the optional chain short-circuits). -/
def scanProposalCreated (logs : Option (List Log)) : Except String (Option Log) :=
  match logs with
  | none => Except.ok none
  | some ls =>
    findExcept
      (fun log =>
        match parseLog governorInterface log with
        | Except.error e => Except.error e
        | Except.ok pl => Except.ok (pl.name == "ProposalCreated"))
      ls

/-- The tail of the scan (src/index.ts:256-263): the `find` itself, and, when
an event was found, the second `parseLog` used to read the proposal id.
Returns `true` when this block throws (the error is then caught by the
handler's catch). -/
def scanFails (logs : Option (List Log)) : Bool :=
  match scanProposalCreated logs with
  | Except.error _ => true
  | Except.ok none => false
  | Except.ok (some l) =>
    match parseLog governorInterface l with
    | Except.error _ => true
    | Except.ok _ => false

/-- The `propose` calldata built by `governorInterface.encodeFunctionData`
(src/index.ts:222-227): one target, one zero value, one calldata blob, a
free-text description. -/
structure ProposeCallData where
  targets : List String
  values : List Nat
  calldatas : List String
  description : String
  deriving DecidableEq

/-- A transaction broadcast by a handler: the sdk-produced update
transaction sent by `wallet.sendTransaction` (update-strategy), the proposal
transaction (propose-update-strategy), or the voucher `transferFrom`
contract call (transfer-strategy). -/
inductive Broadcast where
  | sdkTx (data : String)
  | proposal (toAddr : String) (data : ProposeCallData) (gasLimit : Nat)
  | transferFrom (contractAddr fromAddr toAddr tokenId : String) (gasLimit : Nat)
  deriving DecidableEq

/-- The environment of a handler run: the `PRIVATE_KEY` variable and the
outcomes of the external SDK / provider / wallet calls, which the embedding
treats as oracles (`true` = the awaited call succeeds). -/
structure Env where
  privateKey : Option String := none
  initOk : Bool := true
  getStrategyOk : Bool := true
  encodeOk : Bool := true
  pairsOk : Bool := true
  sendOk : Bool := true
  waitOk : Bool := true
  receiptLogs : Option (List Log) := none
  encodedStrategy : String := ""
  sdkTxData : String := ""
  walletAddress : String := ""

/-- The observable outcome of one command-handler run. -/
structure RunResult where
  sdkCalls : List SdkUpdateCall := []
  sends : List Broadcast := []
  pairLookup : Option (Option TokenPair) := none
  errorLogged : Bool := false
  escaped : Bool := false
  exitCode : Option Nat := none

/-- The `init` command action (src/index.ts:69-79): `initSDK` in a try;
on failure the error is logged and `process.exit(1)` is called. -/
def runInitCommand (env : Env) : RunResult :=
  if !env.initOk then { errorLogged := true, exitCode := some 1 }
  else {}

/-- The pair lookup of the get-pair-info action (src/index.ts:88-91):
`pairs.find(pair => (pair[0] === token0 && pair[1] === token1) ||
(pair[0] === token1 && pair[1] === token0))`. -/
def findPair (pairs : List TokenPair) (token0 token1 : String) : Option TokenPair :=
  pairs.find? (fun pair =>
    (pair.1 == token0 && pair.2 == token1) || (pair.1 == token1 && pair.2 == token0))

/-- The get-pair-info command action (src/index.ts:84-100): `initSDK`, then
`api.reader.pairs()`, then the lookup and a console report; all in a try
whose catch logs the error. -/
def runGetPairInfo (env : Env) (pairs : List TokenPair) (token0 token1 : String) :
    RunResult :=
  if !env.initOk then { errorLogged := true }
  else if !env.pairsOk then { errorLogged := true }
  else { pairLookup := some (findPair pairs token0 token1) }

/-- The get-cached-pairs command action (src/index.ts:105-113). -/
def runGetCachedPairs (env : Env) : RunResult :=
  if !env.initOk then { errorLogged := true }
  else {}

/-- The update-strategy command action (src/index.ts:126-191): `initSDK`,
`sdk.getStrategyById`, the `strategyUpdate` construction and marginal-price
resolution, `sdk.updateStrategy`, the `PRIVATE_KEY` presence check (JS
truthiness), `wallet.sendTransaction(tx)`, and `response.wait()`; the whole
body is inside a try whose catch logs the error and returns. -/
def runUpdateStrategyAction (env : Env) (strategyId : String) (options : UpdateOptions) :
    RunResult :=
  if !env.initOk then { errorLogged := true }
  else if !env.getStrategyOk then { errorLogged := true }
  else
    let call := updateStrategySdkCall strategyId env.encodedStrategy options
    if !env.encodeOk then { sdkCalls := [call], errorLogged := true }
    else if !(truthyStr env.privateKey) then { sdkCalls := [call], errorLogged := true }
    else if !env.sendOk then
      { sdkCalls := [call], sends := [Broadcast.sdkTx env.sdkTxData], errorLogged := true }
    else if !env.waitOk then
      { sdkCalls := [call], sends := [Broadcast.sdkTx env.sdkTxData], errorLogged := true }
    else { sdkCalls := [call], sends := [Broadcast.sdkTx env.sdkTxData] }

/-- The `proposeUpdateStrategy` function (src/index.ts:197-268): `initSDK`,
`sdk.getStrategyById`, `sdk.updateStrategy` with the marginal-price
parameters forwarded unresolved, the `propose` calldata encoding, the
`PRIVATE_KEY` presence check, the proposal broadcast to `governorAddress`
with a 1000000 gas limit, `proposalTx.wait()`, and the `ProposalCreated`
scan; the whole body is inside a try whose catch logs the error. -/
def runProposeUpdateStrategy (env : Env) (governorAddress strategyId : String)
    (strategyUpdate : StrategyUpdate) (buyPriceMarginal sellPriceMarginal : Option String) :
    RunResult :=
  if !env.initOk then { errorLogged := true }
  else if !env.getStrategyOk then { errorLogged := true }
  else
    let call := proposeSdkCall strategyId env.encodedStrategy strategyUpdate
      buyPriceMarginal sellPriceMarginal
    if !env.encodeOk then { sdkCalls := [call], errorLogged := true }
    else
      let proposalData : ProposeCallData :=
        { targets := [base_config.carbon.carbonController]
          values := [0]
          calldatas := [env.sdkTxData]
          description := "Update strategy " ++ strategyId }
      if !(truthyStr env.privateKey) then { sdkCalls := [call], errorLogged := true }
      else
        let b := Broadcast.proposal governorAddress proposalData 1000000
        if !env.sendOk then { sdkCalls := [call], sends := [b], errorLogged := true }
        else if !env.waitOk then { sdkCalls := [call], sends := [b], errorLogged := true }
        else if scanFails env.receiptLogs then
          { sdkCalls := [call], sends := [b], errorLogged := true }
        else { sdkCalls := [call], sends := [b] }

/-- The registered propose-update-strategy command action
(src/index.ts:281-292): builds the `strategyUpdate` from the options and
calls `proposeUpdateStrategy` with the hardcoded `GOVERNOR_ADDRESS` and the
raw marginal-price option values. -/
def runProposeCommandAction (env : Env) (strategyId : String) (options : UpdateOptions) :
    RunResult :=
  runProposeUpdateStrategy env GOVERNOR_ADDRESS strategyId (mkStrategyUpdate options)
    options.buyPriceMarginal options.sellPriceMarginal

/-- The `transferStrategy` function (src/index.ts:294-334): `initSDK`,
`sdk.getStrategyById`, the `PRIVATE_KEY` presence check, then the voucher
contract's `transferFrom(wallet.address, TIMELOCK_ADDRESS, strategyId)` with
a 1000000 gas limit, and `tx.wait()`; the whole body is inside a try whose
catch logs the error. -/
def runTransferStrategy (env : Env) (strategyId : String) : RunResult :=
  if !env.initOk then { errorLogged := true }
  else if !env.getStrategyOk then { errorLogged := true }
  else if !(truthyStr env.privateKey) then { errorLogged := true }
  else
    let b := Broadcast.transferFrom VOUCHER_ADDRESS env.walletAddress TIMELOCK_ADDRESS
      strategyId 1000000
    if !env.sendOk then { sends := [b], errorLogged := true }
    else if !env.waitOk then { sends := [b], errorLogged := true }
    else { sends := [b] }

/-- One commander command registration: name, positional arguments, option
flags. -/
structure CommandDef where
  name : String
  positionalArgs : List String
  optionFlags : List String
  deriving DecidableEq

/-- The eight option flags shared by the update-strategy
(src/index.ts:118-125) and propose-update-strategy (src/index.ts:273-280)
registrations. -/
def updateOptionFlags : List String :=
  ["--buyPriceLow", "--buyPriceHigh", "--buyBudget", "--sellPriceLow",
   "--sellPriceHigh", "--sellBudget", "--buyPriceMarginal", "--sellPriceMarginal"]

/-- The six command registrations of src/index.ts, in registration order
(lines 69, 81, 102, 115, 270, 336). -/
def registeredCommands : List CommandDef :=
  [{ name := "init", positionalArgs := [], optionFlags := [] },
   { name := "get-pair-info", positionalArgs := ["token0", "token1"], optionFlags := [] },
   { name := "get-cached-pairs", positionalArgs := [], optionFlags := [] },
   { name := "update-strategy", positionalArgs := ["strategyId"],
     optionFlags := updateOptionFlags },
   { name := "propose-update-strategy", positionalArgs := ["strategyId"],
     optionFlags := updateOptionFlags },
   { name := "transfer-strategy", positionalArgs := ["strategyId"], optionFlags := [] }]

/-- Helper: `List.find?` only depends on the pointwise behavior of its
predicate. -/
theorem find?_congr_pred {α : Type} (p q : α → Bool) (h : ∀ x, p x = q x) :
    ∀ l : List α, l.find? p = l.find? q := by
  intro l
  induction l with
  | nil => rfl
  | cons a as ih => rw [List.find?_cons, List.find?_cons, h a, ih]

/-- C4: the get-pair-info lookup is order-independent — for every pair list
returned by the reader and every two token address strings, `get-pair-info a
b` and `get-pair-info b a` select the same pair record, because the stored
pair (p0, p1) matches when (p0 = a and p1 = b) or (p0 = b and p1 = a). -/
theorem get_pair_info_order_independent :
    ∀ (env : Env) (pairs : List TokenPair) (token0 token1 : String),
      findPair pairs token0 token1 = findPair pairs token1 token0 ∧
      runGetPairInfo env pairs token0 token1 = runGetPairInfo env pairs token1 token0 := by
  intro env pairs token0 token1
  have hfind : findPair pairs token0 token1 = findPair pairs token1 token0 := by
    unfold findPair
    exact find?_congr_pred _ _ (fun x => Bool.or_comm _ _) pairs
  refine ⟨hfind, ?_⟩
  unfold runGetPairInfo
  rw [hfind]

/-- C5: for an update-strategy invocation in which only `--buyBudget` is
supplied, the `StrategyUpdate` object handed to `sdk.updateStrategy` has
`buyBudget` set to the supplied string and every other field `undefined`;
absent options are never defaulted. -/
theorem only_buyBudget_leaves_others_undefined :
    ∀ (amount strategyId encoded : String) (env : Env),
      (updateStrategySdkCall strategyId encoded { buyBudget := some amount }).update =
        { buyPriceLow := none, buyPriceHigh := none, buyBudget := some amount,
          sellPriceLow := none, sellPriceHigh := none, sellBudget := none } ∧
      ((runUpdateStrategyAction env strategyId { buyBudget := some amount }).sdkCalls = [] ∨
       (runUpdateStrategyAction env strategyId { buyBudget := some amount }).sdkCalls =
         [updateStrategySdkCall strategyId env.encodedStrategy { buyBudget := some amount }]) := by
  intro amount strategyId encoded env
  refine ⟨rfl, ?_⟩
  unfold runUpdateStrategyAction
  split_ifs <;> simp

/-- C6: every transfer-strategy broadcast is a `transferFrom` on the voucher
contract whose destination is the fixed hardcoded `TIMELOCK_ADDRESS` with a
fixed 1000000 gas-limit override, for every strategy identifier; the
registered command takes only `<strategyId>`, so no caller-supplied data can
change the recipient. -/
theorem transfer_targets_timelock :
    ∀ (env : Env) (strategyId : String),
      ((runTransferStrategy env strategyId).sends = [] ∨
       (runTransferStrategy env strategyId).sends =
         [Broadcast.transferFrom VOUCHER_ADDRESS env.walletAddress TIMELOCK_ADDRESS
            strategyId 1000000]) ∧
      registeredCommands.filter (fun c => c.name == "transfer-strategy") =
        [{ name := "transfer-strategy", positionalArgs := ["strategyId"],
           optionFlags := [] }] ∧
      TIMELOCK_ADDRESS = "0x4b339A63be892204081AdCd02ac980FA71400e01" := by
  intro env strategyId
  refine ⟨?_, by decide, rfl⟩
  unfold runTransferStrategy
  split_ifs <;> simp

/-- C7: the process exits with status 1 exactly when the `init` command's
`initSDK` call fails; every other command handler catches its own errors
(nothing escapes to the process level) and never calls `process.exit`, so
the process exits with status 0. -/
theorem exit_codes_init_only :
    ∀ (env : Env) (pairs : List TokenPair) (token0 token1 strategyId : String)
      (options : UpdateOptions),
      (runInitCommand env).exitCode = (if env.initOk then none else some 1) ∧
      (runInitCommand env).escaped = false ∧
      (runGetPairInfo env pairs token0 token1).exitCode = none ∧
      (runGetPairInfo env pairs token0 token1).escaped = false ∧
      (runGetPairInfo env pairs token0 token1).errorLogged =
        (!env.initOk || !env.pairsOk) ∧
      (runGetCachedPairs env).exitCode = none ∧
      (runGetCachedPairs env).escaped = false ∧
      (runGetCachedPairs env).errorLogged = !env.initOk ∧
      (runUpdateStrategyAction env strategyId options).exitCode = none ∧
      (runUpdateStrategyAction env strategyId options).escaped = false ∧
      (runProposeCommandAction env strategyId options).exitCode = none ∧
      (runProposeCommandAction env strategyId options).escaped = false ∧
      (runTransferStrategy env strategyId).exitCode = none ∧
      (runTransferStrategy env strategyId).escaped = false := by
  intro env pairs token0 token1 strategyId options
  refine ⟨?_, ?_, ?_, ?_, ?_, ?_, ?_, ?_, ?_, ?_, ?_, ?_, ?_, ?_⟩
  case _ => unfold runInitCommand; cases h : env.initOk <;> simp [h]
  case _ => unfold runInitCommand; split_ifs <;> rfl
  case _ => unfold runGetPairInfo; split_ifs <;> rfl
  case _ => unfold runGetPairInfo; split_ifs <;> rfl
  case _ =>
    unfold runGetPairInfo
    cases h : env.initOk <;> cases hp : env.pairsOk <;> simp [h, hp]
  case _ => unfold runGetCachedPairs; split_ifs <;> rfl
  case _ => unfold runGetCachedPairs; split_ifs <;> rfl
  case _ => unfold runGetCachedPairs; cases h : env.initOk <;> simp [h]
  case _ => unfold runUpdateStrategyAction; split_ifs <;> rfl
  case _ => unfold runUpdateStrategyAction; split_ifs <;> rfl
  case _ =>
    unfold runProposeCommandAction runProposeUpdateStrategy; split_ifs <;> rfl
  case _ =>
    unfold runProposeCommandAction runProposeUpdateStrategy; split_ifs <;> rfl
  case _ => unfold runTransferStrategy; split_ifs <;> rfl
  case _ => unfold runTransferStrategy; split_ifs <;> rfl

/-- Helper: the update-strategy action hands `sdk.updateStrategy` either
nothing (an earlier step failed) or exactly the argument tuple built by
`updateStrategySdkCall`. -/
theorem runUpdateStrategyAction_sdkCalls (env : Env) (strategyId : String)
    (options : UpdateOptions) :
    (runUpdateStrategyAction env strategyId options).sdkCalls = [] ∨
    (runUpdateStrategyAction env strategyId options).sdkCalls =
      [updateStrategySdkCall strategyId env.encodedStrategy options] := by
  unfold runUpdateStrategyAction
  split_ifs <;> simp

/-- Helper: the registered propose-update-strategy action hands
`sdk.updateStrategy` either nothing or exactly the argument tuple built by
`proposeSdkCall` with the raw marginal-price option values. -/
theorem runProposeCommandAction_sdkCalls (env : Env) (strategyId : String)
    (options : UpdateOptions) :
    (runProposeCommandAction env strategyId options).sdkCalls = [] ∨
    (runProposeCommandAction env strategyId options).sdkCalls =
      [proposeSdkCall strategyId env.encodedStrategy (mkStrategyUpdate options)
        options.buyPriceMarginal options.sellPriceMarginal] := by
  unfold runProposeCommandAction runProposeUpdateStrategy
  split_ifs <;> simp

/-- C1 (counterexample): the claim asserts that propose-update-strategy also
resolves the literal strings "RESET" and "MAINTAIN" to the SDK sentinels,
but `proposeUpdateStrategy` forwards the raw option strings to
`sdk.updateStrategy` with no resolution: at `--buyPriceMarginal RESET
--sellPriceMarginal MAINTAIN` the values handed over are the plain strings,
not the sentinel enum members produced by the update-strategy resolution. -/
theorem marginal_resolution_claim_counterexample :
    (proposeSdkCall "1" "" {} (some "RESET") (some "MAINTAIN")).buyPriceMarginal =
      some (MarginalArg.raw "RESET") ∧
    (proposeSdkCall "1" "" {} (some "RESET") (some "MAINTAIN")).sellPriceMarginal =
      some (MarginalArg.raw "MAINTAIN") ∧
    resolveMarginal (some "RESET") =
      some (MarginalArg.sentinel MarginalPriceOptions.reset) ∧
    some (MarginalArg.raw "RESET") ≠
      some (MarginalArg.sentinel MarginalPriceOptions.reset) ∧
    some (MarginalArg.raw "MAINTAIN") ≠
      some (MarginalArg.sentinel MarginalPriceOptions.maintain) := by
  refine ⟨rfl, rfl, by decide, by decide, by decide⟩

/-- C1 (amended): in the update-strategy action, each of the two
marginal-price options resolves "RESET" to the reset sentinel, "MAINTAIN" to
the maintain sentinel, any other non-empty string to itself unchanged, and
an absent option to `undefined`, and the resolved values are the ones handed
to `sdk.updateStrategy`; the propose-update-strategy path instead forwards
the raw option values to `sdk.updateStrategy` unchanged, without sentinel
resolution (an absent option is still forwarded as `undefined`). -/
theorem marginal_resolution_amended :
    resolveMarginal (some "RESET") =
      some (MarginalArg.sentinel MarginalPriceOptions.reset) ∧
    resolveMarginal (some "MAINTAIN") =
      some (MarginalArg.sentinel MarginalPriceOptions.maintain) ∧
    (∀ s : String, s ≠ "" → s ≠ "RESET" → s ≠ "MAINTAIN" →
      resolveMarginal (some s) = some (MarginalArg.raw s)) ∧
    resolveMarginal none = none ∧
    (∀ (strategyId encoded : String) (options : UpdateOptions),
      (updateStrategySdkCall strategyId encoded options).buyPriceMarginal =
          resolveMarginal options.buyPriceMarginal ∧
        (updateStrategySdkCall strategyId encoded options).sellPriceMarginal =
          resolveMarginal options.sellPriceMarginal) ∧
    (∀ (strategyId encoded : String) (su : StrategyUpdate)
        (bpm spm : Option String),
      (proposeSdkCall strategyId encoded su bpm spm).buyPriceMarginal =
          Option.map MarginalArg.raw bpm ∧
        (proposeSdkCall strategyId encoded su bpm spm).sellPriceMarginal =
          Option.map MarginalArg.raw spm) := by
  refine ⟨by decide, by decide, ?_, rfl, fun _ _ _ => ⟨rfl, rfl⟩,
    fun _ _ _ _ _ => ⟨rfl, rfl⟩⟩
  intro s h1 h2 h3
  simp [resolveMarginal, h1, h2, h3]

/-- Witness for the amended C1 theorem at the concrete non-empty,
non-sentinel string "1.5". -/
theorem marginal_resolution_amended_witness :
    ("1.5" ≠ "" ∧ "1.5" ≠ "RESET" ∧ "1.5" ≠ "MAINTAIN") ∧
    resolveMarginal (some "1.5") = some (MarginalArg.raw "1.5") :=
  ⟨⟨by decide, by decide, by decide⟩,
   marginal_resolution_amended.2.2.1 "1.5" (by decide) (by decide) (by decide)⟩

/-- C2: for each of the three signing commands (update-strategy,
propose-update-strategy, transfer-strategy), when `PRIVATE_KEY` is absent no
transaction is broadcast (no `wallet.sendTransaction` or contract call is
recorded), the raised error is caught inside the handler and logged, nothing
escapes to the process level, and no `process.exit` is called; this holds
whatever the outcomes of the other external calls are. -/
theorem missing_private_key_no_broadcast :
    ∀ (env : Env) (strategyId : String) (options : UpdateOptions),
      (runUpdateStrategyAction { env with privateKey := none } strategyId options).sends
          = [] ∧
      (runUpdateStrategyAction { env with privateKey := none } strategyId
          options).errorLogged = true ∧
      (runUpdateStrategyAction { env with privateKey := none } strategyId
          options).escaped = false ∧
      (runUpdateStrategyAction { env with privateKey := none } strategyId
          options).exitCode = none ∧
      (runProposeCommandAction { env with privateKey := none } strategyId options).sends
          = [] ∧
      (runProposeCommandAction { env with privateKey := none } strategyId
          options).errorLogged = true ∧
      (runProposeCommandAction { env with privateKey := none } strategyId
          options).escaped = false ∧
      (runProposeCommandAction { env with privateKey := none } strategyId
          options).exitCode = none ∧
      (runTransferStrategy { env with privateKey := none } strategyId).sends = [] ∧
      (runTransferStrategy { env with privateKey := none } strategyId).errorLogged
          = true ∧
      (runTransferStrategy { env with privateKey := none } strategyId).escaped
          = false ∧
      (runTransferStrategy { env with privateKey := none } strategyId).exitCode
          = none := by
  intro env strategyId options
  unfold runUpdateStrategyAction runProposeCommandAction runProposeUpdateStrategy
    runTransferStrategy
  split_ifs <;> simp_all [truthyStr]

/-- C9: an update-strategy invocation makes at most one
`wallet.sendTransaction` call, whatever the outcomes of the external calls;
and when the broadcast or the confirmation wait fails, the error is caught
and logged and still at most one broadcast was made — there is no
re-attempt. -/
theorem at_most_one_broadcast_no_retry :
    ∀ (env : Env) (strategyId : String) (options : UpdateOptions),
      (runUpdateStrategyAction env strategyId options).sends.length ≤ 1 ∧
      (runUpdateStrategyAction env strategyId options).escaped = false ∧
      (runUpdateStrategyAction { env with sendOk := false } strategyId
          options).errorLogged = true ∧
      (runUpdateStrategyAction { env with sendOk := false } strategyId
          options).sends.length ≤ 1 ∧
      (runUpdateStrategyAction { env with waitOk := false } strategyId
          options).errorLogged = true ∧
      (runUpdateStrategyAction { env with waitOk := false } strategyId
          options).sends.length ≤ 1 := by
  intro env strategyId options
  unfold runUpdateStrategyAction
  split_ifs <;> simp_all

/-- C10 (counterexample): the claim asserts that on the
propose-update-strategy path an empty-string marginal-price option is
resolved to `undefined` like an absent option; but `proposeUpdateStrategy`
forwards the empty string to `sdk.updateStrategy` unchanged (it performs no
truthiness check), so the handed value is the empty string, not
`undefined`. -/
theorem empty_marginal_claim_counterexample :
    (proposeSdkCall "1" "" {} (some "") none).buyPriceMarginal =
      some (MarginalArg.raw "") ∧
    some (MarginalArg.raw "") ≠ (none : Option MarginalArg) := by
  refine ⟨rfl, by decide⟩

/-- C10 (amended): in the update-strategy action an empty-string
marginal-price option is resolved to `undefined` exactly like an absent
option, because the resolution branches on JavaScript truthiness (the empty
string is falsy); the propose-update-strategy path has no such check and
forwards the empty string to `sdk.updateStrategy` unchanged. -/
theorem empty_marginal_amended :
    resolveMarginal (some "") = none ∧
    resolveMarginal none = none ∧
    (∀ (strategyId encoded : String) (options : UpdateOptions),
      (updateStrategySdkCall strategyId encoded
          { options with buyPriceMarginal := some "" }).buyPriceMarginal = none ∧
        (updateStrategySdkCall strategyId encoded
          { options with sellPriceMarginal := some "" }).sellPriceMarginal = none) ∧
    (∀ (strategyId encoded : String) (su : StrategyUpdate) (spm : Option String),
      (proposeSdkCall strategyId encoded su (some "") spm).buyPriceMarginal =
        some (MarginalArg.raw "")) := by
  exact ⟨rfl, rfl, fun _ _ _ => ⟨rfl, rfl⟩, fun _ _ _ _ => rfl⟩

/-- C8 (counterexample): the claim asserts a second propose-update-strategy
command registration taking `<governorAddress> <strategyId>`; no such
registration exists — there is exactly one propose-update-strategy command
and its only positional argument is `strategyId`, so no command-line input
supplies the governor address. -/
theorem no_parameterized_propose_command :
    (registeredCommands.filter (fun c => c.name == "propose-update-strategy")).length
        = 1 ∧
    (¬ ∃ c ∈ registeredCommands, c.name = "propose-update-strategy" ∧
        c.positionalArgs = ["governorAddress", "strategyId"]) := by
  exact ⟨by decide, by decide⟩

/-- C8 (amended): the repository registers a single propose-update-strategy
command, taking only `<strategyId>`; the handler function
`proposeUpdateStrategy` is parameterized by a governor address, but its only
call site — the registered action — always passes the hardcoded
`GOVERNOR_ADDRESS`, so the dispatcher never invokes the proposal handler
with a caller-supplied governor address. -/
theorem single_propose_command_hardcoded_governor :
    registeredCommands.filter (fun c => c.name == "propose-update-strategy") =
      [{ name := "propose-update-strategy", positionalArgs := ["strategyId"],
         optionFlags := updateOptionFlags }] ∧
    (∀ (env : Env) (strategyId : String) (options : UpdateOptions),
      runProposeCommandAction env strategyId options =
        runProposeUpdateStrategy env GOVERNOR_ADDRESS strategyId
          (mkStrategyUpdate options) options.buyPriceMarginal
          options.sellPriceMarginal) ∧
    GOVERNOR_ADDRESS = "0x0395FA5e53e2a9C9528539360324Da422708aCbD" := by
  exact ⟨by decide, fun _ _ _ => rfl, rfl⟩

/-- C3 (code-bug evidence): `governorInterface` is built from the `propose`
function fragment only and declares no events, so `parseLog` throws
"no matching event" on every receipt log — including the genuine
`ProposalCreated` log the scan is looking for.  Hence whenever the confirmed
proposal receipt contains at least one log, the scan callback throws, the
handler's catch logs an error, and the proposal identifier is never
extracted; the scan is silent only when `receipt.logs` is empty or
`undefined`.  This contradicts the claimed best-effort behavior (identifier
reported when the event is present, silently omitted otherwise, the scan
itself never causing an error). -/
theorem proposal_scan_errors_on_logs :
    governorInterface.events = [] ∧
    scanProposalCreated
        (some [⟨["0x7d84a6263ae0d98d3329bd7b46bb4e8d6f98cd35a7adb45c274c8b7fd5ebd5e0"],
          "0x"⟩]) = Except.error "no matching event" ∧
    (runProposeUpdateStrategy
        { privateKey := some "0xabc",
          receiptLogs := some
            [⟨["0x7d84a6263ae0d98d3329bd7b46bb4e8d6f98cd35a7adb45c274c8b7fd5ebd5e0"],
              "0x"⟩] }
        GOVERNOR_ADDRESS "1" {} none none).errorLogged = true ∧
    scanProposalCreated (some []) = Except.ok none ∧
    scanProposalCreated none = Except.ok none := by
  refine ⟨rfl, rfl, ?_, rfl, rfl⟩
  rfl

end CarbonCli
